import Mathlib

/-!
Verification development for the `python-shell` repository (`src/shell.py`).

The Python module is shallowly embedded below.  Pure fragments of the
source (tokenising, permission formatting, listing formatting, dedup
comparison, dispatch selection) become Lean functions with the source's
names.  The filesystem and process state touched by `cd`/`ls`/the main
loop become an explicit `FS`/`ShellState` record passed through the step
function, and Python exceptions become `Except`/dedicated result
constructors (`FileNotFoundError`/`NotADirectoryError` as `OSErr`,
an uncaught exception as `StepResult.crashed`, `exit(0)` as
`StepResult.exited`).
-/

deriving instance DecidableEq for Except

namespace Shell

/-! ## Permission bits (`stat` constants and class `Permissions`) -/

def S_IRUSR : Nat := 0x100
def S_IWUSR : Nat := 0x080
def S_IXUSR : Nat := 0x040
def S_IRGRP : Nat := 0x020
def S_IWGRP : Nat := 0x010
def S_IXGRP : Nat := 0x008
def S_IROTH : Nat := 0x004
def S_IWOTH : Nat := 0x002
def S_IXOTH : Nat := 0x001

/-- `stat.S_IFMT` mask for the file-type bits of `st_mode`. -/
def S_IFMT : Nat := 0o170000

/-- `stat.S_IFDIR`. -/
def S_IFDIR : Nat := 0o040000

/-- `stat.S_ISDIR(mode)`: the file-type bits of the mode equal `S_IFDIR`. -/
def S_ISDIR (st_mode : Nat) : Bool := st_mode &&& S_IFMT == S_IFDIR

/-- `Permissions.OWNER` from the source. -/
def Permissions_OWNER : List Nat := [S_IRUSR, S_IWUSR, S_IXUSR]

/-- `Permissions.GROUP` from the source. -/
def Permissions_GROUP : List Nat := [S_IRGRP, S_IWGRP, S_IXGRP]

/-- `Permissions.OTHERS` from the source. -/
def Permissions_OTHERS : List Nat := [S_IROTH, S_IWOTH, S_IXOTH]

def PERMISSIONS_SYMBOLS : List String := ["r", "w", "x"]

def EMPTY_PERMISSION_SYMBOL : String := "-"

/-- The shared loop body of `_format_owner_permissions`,
`_format_group_permissions` and `_format_others_permissions`:
`for index, value in enumerate(levels): permissions += symbol-or-dash`. -/
def format_level_permissions (levels : List Nat) (permissions : String)
    (st_mode : Nat) : String :=
  levels.enum.foldl
    (fun acc iv =>
      acc ++ (if st_mode &&& iv.2 != 0 then PERMISSIONS_SYMBOLS.getD iv.1 ""
              else EMPTY_PERMISSION_SYMBOL))
    permissions

/-- `CommandManager._format_owner_permissions`. -/
def format_owner_permissions (permissions : String) (st_mode : Nat) : String :=
  format_level_permissions Permissions_OWNER permissions st_mode

/-- `CommandManager._format_group_permissions`. -/
def format_group_permissions (permissions : String) (st_mode : Nat) : String :=
  format_level_permissions Permissions_GROUP permissions st_mode

/-- `CommandManager._format_others_permissions`. -/
def format_others_permissions (permissions : String) (st_mode : Nat) : String :=
  format_level_permissions Permissions_OTHERS permissions st_mode

/-- `CommandManager._format_path_permissions_levels`. -/
def format_path_permissions_levels (st_mode : Nat) : String :=
  let permissions := if S_ISDIR st_mode then "d" else "-"
  let permissions := format_owner_permissions permissions st_mode
  let permissions := format_group_permissions permissions st_mode
  format_others_permissions permissions st_mode

/-! ## Directory entries and the long-listing formatter -/

/-- The filesystem metadata of one directory entry, as the source reads it
through `path_item.stat()`, `path_item.owner()`, `path_item.group()` and
`path_item.name`.  The two time fields hold the already-rendered
`str(datetime.fromtimestamp(...))` of `st_ctime` resp. `st_mtime`; the
rendering itself is locale/timezone I/O and is treated as entry data. -/
structure Entry where
  name : String
  mode : Nat
  nlink : Nat
  owner : String
  group : String
  size : Nat
  ctime_str : String
  mtime_str : String
deriving DecidableEq, Repr

/-- `CommandManager._format_ls_long_listing`: the three adjacent f-string
segments of the source, concatenated. -/
def format_ls_long_listing (e : Entry) : String :=
  (format_path_permissions_levels e.mode ++ " ") ++
    (toString e.nlink ++ " " ++ e.owner ++ " " ++ e.group ++ "  ") ++
    (toString e.size ++ " " ++ e.ctime_str ++ " " ++ e.name)

/-- The exact line shape stated by the specification, with the time field
being the entry's MODIFICATION time (spec wording: `<modTimeLocalLocale>`). -/
def claimed_long_line_mtime (e : Entry) : String :=
  format_path_permissions_levels e.mode ++ " " ++ toString e.nlink ++ " " ++
    e.owner ++ " " ++ e.group ++ "  " ++ toString e.size ++ " " ++
    e.mtime_str ++ " " ++ e.name

/-- The same field-by-field line shape but with the entry's status-change
time (`st_ctime`), which is what the source interpolates. -/
def claimed_long_line_ctime (e : Entry) : String :=
  format_path_permissions_levels e.mode ++ " " ++ toString e.nlink ++ " " ++
    e.owner ++ " " ++ e.group ++ "  " ++ toString e.size ++ " " ++
    e.ctime_str ++ " " ++ e.name

/-! ## History (class `History`)

The history file is modelled as its list of lines (each line a `List Char`,
the trailing newline left implicit).  `write_history` appends the line
`f"{timestamp}:{source_command}"`; the backwards-seek loop of
`is_not_equal_last_history_record` reads exactly the last line of the file,
so it is modelled as `getLastD`. -/

/-- Python `str.split(sep)` for a one-character separator: every occurrence
splits, empty pieces are kept, and the empty string yields `[[]]`. -/
def pySplit (sep : Char) : List Char → List (List Char)
  | [] => [[]]
  | c :: rest =>
    let r := pySplit sep rest
    if c = sep then [] :: r
    else
      match r with
      | [] => [[c]]
      | h :: t => (c :: h) :: t

/-- Python `str.strip()`: drop whitespace from both ends. -/
def pyStrip (s : List Char) : List Char :=
  ((s.dropWhile Char.isWhitespace).reverse.dropWhile Char.isWhitespace).reverse

/-- `History.write_history`: append the line `f"{timestamp}:{source_command}"`
to the file.  The timestamp rendering of `datetime.now().timestamp()` is a
parameter. -/
def write_history (hist : List (List Char)) (timestamp source_command : List Char) :
    List (List Char) :=
  hist ++ [timestamp ++ ':' :: source_command]

/-- `History.is_not_equal_last_history_record`: `True` when the file is empty
or the incoming command is empty, otherwise compare
`last_line.split(":")[1].strip()` with the incoming command.  (`[1]` on a
colon-free line would raise `IndexError` in Python; lines written by
`write_history` always contain a colon, and the model totalises with
`getD`.) -/
def is_not_equal_last_history_record (hist : List (List Char))
    (source_command : List Char) : Bool :=
  if hist.isEmpty || source_command.isEmpty then true
  else decide (pyStrip ((pySplit ':' (hist.getLastD [])).getD 1 []) ≠ source_command)

/-- `History.show`: print `f"{index}  {value.split(':')[1].strip()}"` for each
line, zero-indexed in file order. -/
def history_show (hist : List (List Char)) : List String :=
  hist.enum.map
    (fun iv => toString iv.1 ++ "  " ++ String.mk (pyStrip ((pySplit ':' iv.2).getD 1 [])))

/-! ## Parser (class `Parser`) -/

/-- The `Command` enum. -/
inductive Command where
  | ECHO
  | CD
  | PWD
  | LS
  | EXIT
  | CLEAR
  | HISTORY
deriving DecidableEq, Repr

/-- `Command._member_names_`. -/
def Command_member_names : List String :=
  ["ECHO", "CD", "PWD", "LS", "EXIT", "CLEAR", "HISTORY"]

/-- The `value` of each `Command` member (the lowercase method name). -/
def commandValue : Command → String
  | .ECHO => "echo"
  | .CD => "cd"
  | .PWD => "pwd"
  | .LS => "ls"
  | .EXIT => "exit"
  | .CLEAR => "clear"
  | .HISTORY => "history"

def Command_values : List String :=
  ["echo", "cd", "pwd", "ls", "exit", "clear", "history"]

/-- Python `str.startswith`, stated on the character lists. -/
def pyStartsWith (s p : String) : Bool :=
  p.data.isPrefixOf s.data

/-- Python `str.upper()` (ASCII case mapping suffices for the command
names). -/
def pyUpper (s : String) : String :=
  String.mk (s.data.map Char.toUpper)

/-- The character-list worker of `Parser._tokenize`: Python `str.split()`
splits on runs of whitespace and yields no empty tokens. -/
def splitWhitespaceAux : List Char → List Char → List String
  | [], acc => if acc.isEmpty then [] else [String.mk acc.reverse]
  | c :: rest, acc =>
    if c.isWhitespace then
      if acc.isEmpty then splitWhitespaceAux rest []
      else String.mk acc.reverse :: splitWhitespaceAux rest []
    else splitWhitespaceAux rest (c :: acc)

/-- `Parser._tokenize`: Python `str.split()` — split on whitespace runs,
dropping empty pieces. -/
def tokenize (source_command : String) : List String :=
  splitWhitespaceAux source_command.data []

/-- `Parser._validate_main_command`: valid iff `main_command.upper()` is a
`Command` member name (the source raises `ValueError` otherwise; the model
returns the validity). -/
def validate_main_command (main_command : String) : Bool :=
  Command_member_names.contains (pyUpper main_command)

/-- `Parser._parse_main_command`: the parsed main command (`None` on an
empty line or an unknown first token) together with the lines the parser
prints (`Command not found: ...` on an unknown token). -/
def parse_main_command : List String → Option String × List String
  | [] => (none, [])
  | main_command :: _ =>
    if validate_main_command main_command then (some main_command, [])
    else (none, ["Command not found: " ++ main_command])

/-! ## Dispatch (class `CommandManager`) -/

/-- The attribute names of a `CommandManager` instance, as `hasattr` sees
them: the methods and instance attributes defined in the class plus the
usual object dunders (none of which upper-cases to a `Command` member
name). -/
def CommandManager_attr_names : List String :=
  ["run", "echo", "cd", "pwd", "ls", "exit", "clear", "history",
   "_execute_command", "_able_to_receive_arguments", "_parse_ls_arguments",
   "_format_ls_long_listing", "_format_path_permissions_levels",
   "_format_owner_permissions", "_format_group_permissions",
   "_format_others_permissions", "_get_no_hidden_items_from_path",
   "_validate_ls_path_argument", "_main_command", "_arguments",
   "__init__", "__class__", "__dict__", "__module__", "__doc__"]

/-- `getattr(self, token)` restricted to the command handlers: the handler
method whose name equals the token exactly (Python attribute lookup is
case-sensitive).  Tokens naming a non-handler attribute are never executed
on a validated token, so they map to `none`. -/
def commandOfValue (token : String) : Option Command :=
  if token = "echo" then some .ECHO
  else if token = "cd" then some .CD
  else if token = "pwd" then some .PWD
  else if token = "ls" then some .LS
  else if token = "exit" then some .EXIT
  else if token = "clear" then some .CLEAR
  else if token = "history" then some .HISTORY
  else none

/-- `CommandManager.run`: dispatch only when a main command was parsed and
`hasattr(self, main_command)` holds; the result is the handler selected. -/
def runDispatch : Option String → Option Command
  | none => none
  | some token =>
    if CommandManager_attr_names.contains token then commandOfValue token
    else none

/-- `CommandManager._able_to_receive_arguments`: `inspect.getfullargspec`
yields a non-empty `args` list exactly for the non-static handlers
(`echo`, `cd`, `ls`, whose specs are `[self, <list>]`); the `@staticmethod`
handlers have no declared arguments. -/
def able_to_receive_arguments : Command → Bool
  | .ECHO => true
  | .CD => true
  | .LS => true
  | _ => false

/-- `CommandManager.echo`: join the passed arguments with single spaces,
falling back to the instance's parsed arguments when called without any. -/
def echo (arguments parser_arguments : List String) : String :=
  let args := if !arguments.isEmpty then arguments else parser_arguments
  String.intercalate " " args

/-! ## Filesystem model -/

/-- Python `OSError` subclasses distinguished by the source's `except`
clauses. -/
inductive OSErr where
  | fileNotFound
  | notADirectory
deriving DecidableEq, Repr

/-- The filesystem and process state the shell touches: the working
directory, the user's home, the existing directories (absolute path and
entry list) and the existing non-directory files (absolute paths). -/
structure FS where
  cwd : String
  home : String
  dirs : List (String × List Entry)
  files : List String
deriving DecidableEq, Repr

def FS.isDir (fs : FS) (p : String) : Bool := (fs.dirs.lookup p).isSome

def FS.isFile (fs : FS) (p : String) : Bool := fs.files.contains p

/-- `Path.exists()`. -/
def FS.pathExists (fs : FS) (p : String) : Bool := fs.isDir p || fs.isFile p

/-- Model of `os.path.abspath` restricted to the paths exercised here: an
absolute path is returned unchanged, a relative one is joined below the
current working directory (no `.`/`..` normalisation, which no claim
exercises). -/
def abspath (cwd p : String) : String :=
  if pyStartsWith p "/" then p else cwd ++ "/" ++ p

/-- `os.chdir`: raises `FileNotFoundError` on a missing path and
`NotADirectoryError` on an existing non-directory. -/
def FS.chdir (fs : FS) (p : String) : Except OSErr FS :=
  if fs.isDir p then .ok { fs with cwd := p }
  else if fs.isFile p then .error .notADirectory
  else .error .fileNotFound

/-- `Path.iterdir`: the entries of a directory; raises `NotADirectoryError`
on an existing non-directory and `FileNotFoundError` on a missing path. -/
def FS.iterdir (fs : FS) (p : String) : Except OSErr (List Entry) :=
  match fs.dirs.lookup p with
  | some entries => .ok entries
  | none => if fs.isFile p then .error .notADirectory else .error .fileNotFound

/-! ## `cd` -/

/-- The path `cd` builds: `"".join(argument_path) if argument_path else
str(Path.home())`. -/
def cd_target (fs : FS) (argument_path : List String) : String :=
  if argument_path.isEmpty then fs.home else String.join argument_path

/-- `CommandManager.cd`: `os.chdir(os.path.abspath(path))`, printing the new
working directory on success; only `FileNotFoundError` is caught (printing
the `cd:` message and leaving the state unchanged) — any other `OSError`
escapes. -/
def cd_run (fs : FS) (argument_path : List String) : Except OSErr (FS × List String) :=
  let path := cd_target fs argument_path
  match fs.chdir (abspath fs.cwd path) with
  | .ok fs2 => .ok (fs2, [fs2.cwd])
  | .error .fileNotFound => .ok (fs, ["cd: no such file or directory: " ++ path])
  | .error e => .error e

/-! ## `ls` -/

/-- `CommandManager._validate_ls_path_argument`: the path argument itself if
it exists (relative paths resolve against the working directory), else the
`ValueError` message. -/
def validate_ls_path_argument (fs : FS) (path_argument : String) : Except String String :=
  if fs.pathExists (abspath fs.cwd path_argument) then .ok path_argument
  else .error ("ls: cannot access '" ++ path_argument ++ "': No such file or directory")

/-- The loop body of `CommandManager._parse_ls_arguments`, processing the
argument tokens in the (unspecified) iteration order of `set(parameters)`:
a dashed token replaces the flag set with its characters after the dash, a
non-dashed token is validated as the path. -/
def parse_ls_arguments_loop (fs : FS) :
    List String → List Char → String → Except String (List Char × String)
  | [], ls_args, path => .ok (ls_args, path)
  | argument :: rest, ls_args, path =>
    if pyStartsWith argument "-" then
      parse_ls_arguments_loop fs rest (argument.data.drop 1) path
    else
      match validate_ls_path_argument fs argument with
      | .ok p => parse_ls_arguments_loop fs rest ls_args p
      | .error e => .error e

/-- `CommandManager._parse_ls_arguments`: flags start empty, the path starts
at `Path.cwd()`. -/
def parse_ls_arguments (fs : FS) (arguments : List String) :
    Except String (List Char × String) :=
  parse_ls_arguments_loop fs arguments [] fs.cwd

/-- One printed line per entry: the long listing with flag `l`, else just the
name (the body shared by both loops in `CommandManager.ls`). -/
def render_entry (ls_args : List Char) (e : Entry) : String :=
  if ls_args.contains 'l' then format_ls_long_listing e else e.name

/-- The listing part of `CommandManager.ls`: without flag `a` (or with no
flags at all) the hidden entries are filtered out first
(`_get_no_hidden_items_from_path`); with `a` every entry of `iterdir` is
rendered.  An `iterdir` failure is an uncaught `OSError`. -/
def ls_render (fs : FS) (ls_args : List Char) (path : String) :
    Except OSErr (List String) :=
  if ls_args.isEmpty || !(ls_args.contains 'a') then
    match fs.iterdir (abspath fs.cwd path) with
    | .ok items =>
      .ok ((items.filter (fun e => !(pyStartsWith e.name "."))).map (render_entry ls_args))
    | .error e => .error e
  else
    match fs.iterdir (abspath fs.cwd path) with
    | .ok items => .ok (items.map (render_entry ls_args))
    | .error e => .error e

/-- `CommandManager.ls`, given the set-iteration order of its parameters: a
`ValueError` from path validation is caught and its message printed; any
`OSError` from the listing escapes. -/
def ls_run (fs : FS) (ordered_parameters : List String) : Except OSErr (List String) :=
  match parse_ls_arguments fs ordered_parameters with
  | .error msg => .ok [msg]
  | .ok args_path => ls_render fs args_path.1 args_path.2

/-! ## The session step (`main`) -/

/-- The mutable state of one session: the filesystem/process state and the
history file's lines. -/
structure ShellState where
  fs : FS
  hist : List (List Char)
deriving DecidableEq, Repr

/-- The outcome of processing one input line: continue with a new state
(carrying the lines printed and the handler invoked, if any), terminate via
`exit(0)`, or die on an uncaught exception. -/
inductive StepResult where
  | next (st : ShellState) (out : List String) (invoked : Option Command)
  | exited
  | crashed (e : OSErr)
deriving DecidableEq, Repr

/-- The result of one handler invocation. -/
inductive ExecResult where
  | ok (fs : FS) (out : List String)
  | exitCalled
  | raised (e : OSErr)
deriving DecidableEq, Repr

/-- `CommandManager._execute_command`: pass the parsed arguments exactly when
they are non-empty and the handler can receive them, else call with the
handler's default (`[]`).  `set(parameters)` for `ls` is modelled by
`eraseDups` in first-occurrence order (one admissible iteration order of
the Python set). -/
def execute_command (st : ShellState) (cmd : Command) (arguments : List String) :
    ExecResult :=
  let passed := if !arguments.isEmpty && able_to_receive_arguments cmd then arguments
                else []
  match cmd with
  | .ECHO => .ok st.fs [echo passed arguments]
  | .CD =>
    match cd_run st.fs passed with
    | .ok r => .ok r.1 r.2
    | .error e => .raised e
  | .PWD => .ok st.fs [st.fs.cwd]
  | .LS =>
    match ls_run st.fs passed.eraseDups with
    | .ok out => .ok st.fs out
    | .error e => .raised e
  | .EXIT => .exitCalled
  | .CLEAR => .ok st.fs []
  | .HISTORY => .ok st.fs (history_show st.hist)

/-- The history write at the end of each loop iteration: append iff the dedup
check answers "not equal to last". -/
def history_update (hist : List (List Char)) (timestamp : List Char) (line : String) :
    List (List Char) :=
  if is_not_equal_last_history_record hist line.data then
    write_history hist timestamp line.data
  else hist

/-- One iteration of the `while True` loop in `main`: parse the line,
dispatch, then record the line to history (unless the process exited or an
exception escaped first). -/
def shellStep (st : ShellState) (line : String) (timestamp : List Char) : StepResult :=
  let tokens := tokenize line
  let parsed := parse_main_command tokens
  let arguments := tokens.drop 1
  match runDispatch parsed.1 with
  | none => .next ⟨st.fs, history_update st.hist timestamp line⟩ parsed.2 none
  | some cmd =>
    match execute_command st cmd arguments with
    | .ok fs2 out =>
      .next ⟨fs2, history_update st.hist timestamp line⟩ (parsed.2 ++ out) (some cmd)
    | .exitCalled => .exited
    | .raised e => .crashed e

/-! ## Sample data for concrete evaluations -/

/-- A sample regular file entry whose status-change and modification times
render differently. -/
def entrySample : Entry :=
  { name := "f", mode := 0o100644, nlink := 1, owner := "u", group := "g",
    size := 4, ctime_str := "2024-01-01 00:00:00", mtime_str := "2024-06-01 00:00:00" }

/-- A hidden entry. -/
def entryHidden : Entry :=
  { name := ".hidden", mode := 0o100644, nlink := 1, owner := "u", group := "g",
    size := 0, ctime_str := "ct", mtime_str := "mt" }

/-- A visible entry. -/
def entryVisible : Entry :=
  { name := "visible", mode := 0o100644, nlink := 1, owner := "u", group := "g",
    size := 4, ctime_str := "ct", mtime_str := "mt" }

/-- A sample filesystem: working directory `/h` (holding a hidden and a
visible entry), a subdirectory `/h/d`, a regular file `/h/f`, and home
`/home/u`. -/
def sampleFS : FS :=
  { cwd := "/h", home := "/home/u",
    dirs := [("/h", [entryHidden, entryVisible]), ("/h/d", [])],
    files := ["/h/f"] }

/-- A sample session state over `sampleFS` with an empty history file. -/
def sampleState : ShellState := { fs := sampleFS, hist := [] }

/-! ## Helper lemmas about the permission formatter -/

theorem and_two_pow_ne_zero (n k : Nat) :
    (n &&& 2 ^ k != 0) = n.testBit k := by
  rw [Nat.and_two_pow]
  cases h : n.testBit k <;> simp [h, Nat.pow_eq_zero]

theorem ite_singleton {p : Prop} [Decidable p] (x y : Char) :
    (if p then [x] else [y]) = [if p then x else y] := by
  split <;> rfl

theorem format_owner_permissions_eq (p : String) (m : Nat) :
    format_owner_permissions p m =
      ((p ++ (if m &&& 256 != 0 then "r" else "-")) ++
        (if m &&& 128 != 0 then "w" else "-")) ++
        (if m &&& 64 != 0 then "x" else "-") := rfl

theorem format_group_permissions_eq (p : String) (m : Nat) :
    format_group_permissions p m =
      ((p ++ (if m &&& 32 != 0 then "r" else "-")) ++
        (if m &&& 16 != 0 then "w" else "-")) ++
        (if m &&& 8 != 0 then "x" else "-") := rfl

theorem format_others_permissions_eq (p : String) (m : Nat) :
    format_others_permissions p m =
      ((p ++ (if m &&& 4 != 0 then "r" else "-")) ++
        (if m &&& 2 != 0 then "w" else "-")) ++
        (if m &&& 1 != 0 then "x" else "-") := rfl

/-- Claim C2: for every mode-bits integer, the permission formatter returns a
string of exactly 10 characters; position 0 is `d` iff the mode's file-type
bits say directory, else `-`; positions 1-3 render the owner read/write/
execute bits as `r`/`w`/`x` when set and `-` otherwise, positions 4-6 the
group bits and positions 7-9 the other bits (so in particular each of the 8
owner-bit combinations yields exactly the matching `r|-`,`w|-`,`x|-`
segment). -/
theorem format_path_permissions_spec (st_mode : Nat) :
    (format_path_permissions_levels st_mode).length = 10 ∧
    (format_path_permissions_levels st_mode).data =
      [if S_ISDIR st_mode then 'd' else '-',
       if st_mode.testBit 8 then 'r' else '-',
       if st_mode.testBit 7 then 'w' else '-',
       if st_mode.testBit 6 then 'x' else '-',
       if st_mode.testBit 5 then 'r' else '-',
       if st_mode.testBit 4 then 'w' else '-',
       if st_mode.testBit 3 then 'x' else '-',
       if st_mode.testBit 2 then 'r' else '-',
       if st_mode.testBit 1 then 'w' else '-',
       if st_mode.testBit 0 then 'x' else '-'] := by
  have h8 : (st_mode &&& 256 != 0) = st_mode.testBit 8 := and_two_pow_ne_zero st_mode 8
  have h7 : (st_mode &&& 128 != 0) = st_mode.testBit 7 := and_two_pow_ne_zero st_mode 7
  have h6 : (st_mode &&& 64 != 0) = st_mode.testBit 6 := and_two_pow_ne_zero st_mode 6
  have h5 : (st_mode &&& 32 != 0) = st_mode.testBit 5 := and_two_pow_ne_zero st_mode 5
  have h4 : (st_mode &&& 16 != 0) = st_mode.testBit 4 := and_two_pow_ne_zero st_mode 4
  have h3 : (st_mode &&& 8 != 0) = st_mode.testBit 3 := and_two_pow_ne_zero st_mode 3
  have h2 : (st_mode &&& 4 != 0) = st_mode.testBit 2 := and_two_pow_ne_zero st_mode 2
  have h1 : (st_mode &&& 2 != 0) = st_mode.testBit 1 := and_two_pow_ne_zero st_mode 1
  have h0 : (st_mode &&& 1 != 0) = st_mode.testBit 0 := and_two_pow_ne_zero st_mode 0
  have hdata : (format_path_permissions_levels st_mode).data =
      [if S_ISDIR st_mode then 'd' else '-',
       if st_mode.testBit 8 then 'r' else '-',
       if st_mode.testBit 7 then 'w' else '-',
       if st_mode.testBit 6 then 'x' else '-',
       if st_mode.testBit 5 then 'r' else '-',
       if st_mode.testBit 4 then 'w' else '-',
       if st_mode.testBit 3 then 'x' else '-',
       if st_mode.testBit 2 then 'r' else '-',
       if st_mode.testBit 1 then 'w' else '-',
       if st_mode.testBit 0 then 'x' else '-'] := by
    show (format_others_permissions
        (format_group_permissions
          (format_owner_permissions
            (if S_ISDIR st_mode then "d" else "-") st_mode) st_mode) st_mode).data = _
    rw [format_others_permissions_eq, format_group_permissions_eq,
      format_owner_permissions_eq, h8, h7, h6, h5, h4, h3, h2, h1, h0]
    simp only [String.data_append, apply_ite String.data]
    show (((((((((( if S_ISDIR st_mode then ['d'] else ['-']) ++ _) ++ _) ++ _)
      ++ _) ++ _) ++ _) ++ _) ++ _) ++ _) = _
    simp only [ite_singleton]
    simp
  exact ⟨by rw [show (format_path_permissions_levels st_mode).length =
      (format_path_permissions_levels st_mode).data.length from rfl, hdata]; rfl,
    hdata⟩


/-! ## Claim C1: the long-listing line format -/

/-- Claim C1 counterexample: on an entry whose modification time and
status-change time render differently, the line produced by the long-listing
formatter is NOT the claimed template instantiated with the modification
time — the source interpolates `st_ctime`. -/
theorem long_listing_mtime_counterexample :
    format_ls_long_listing entrySample ≠ claimed_long_line_mtime entrySample := by
  decide

/-- Claim C1 (amended): every entry rendered by `ls` in long mode produces
exactly `<permissions10> <linkCount> <owner> <group>  <sizeBytes> <time>
<name>` — two spaces before the size field, single spaces elsewhere — where
the time field is the rendering of the entry's status-change time
(`st_ctime`), not its modification time. -/
theorem long_listing_exact_format (ls_args : List Char) (e : Entry)
    (h : ls_args.contains 'l' = true) :
    render_entry ls_args e = claimed_long_line_ctime e := by
  unfold render_entry
  rw [if_pos h]
  simp [format_ls_long_listing, claimed_long_line_ctime, String.append_assoc]

theorem long_listing_exact_format_witness :
    (['l'] : List Char).contains 'l' = true ∧
    render_entry ['l'] entrySample = claimed_long_line_ctime entrySample :=
  ⟨by decide, long_listing_exact_format ['l'] entrySample (by decide)⟩

/-! ## Claim C3: the history dedup comparison -/

theorem pySplit_ne_nil (sep : Char) (s : List Char) : pySplit sep s ≠ [] := by
  cases s with
  | nil => simp [pySplit]
  | cons c rest =>
    simp only [pySplit]
    split
    · exact List.cons_ne_nil _ _
    · split <;> exact List.cons_ne_nil _ _

theorem pySplit_append (sep : Char) (ts cmd : List Char) (h : sep ∉ ts) :
    pySplit sep (ts ++ sep :: cmd) = ts :: pySplit sep cmd := by
  induction ts with
  | nil => simp [pySplit]
  | cons c rest ih =>
    have hc : ¬(c = sep) := fun e => h (e ▸ List.mem_cons_self c rest)
    have hrest : sep ∉ rest := fun hm => h (List.mem_cons_of_mem _ hm)
    rw [List.cons_append]
    simp only [pySplit, ih hrest, if_neg hc]

/-- Claim C3 counterexample: with the last stored record's command text being
`a:b` and the incoming command text the identical `a:b`, the dedup check
still answers "append" — the code compares the incoming text against
`last_line.split(":")[1].strip()`, which is only `a`. -/
theorem history_dedup_counterexample :
    is_not_equal_last_history_record
      (write_history [] ("1700.5".data) ("a:b".data)) ("a:b".data) = true := by
  decide

/-- Claim C3 (amended): the dedup check answers "append" exactly when the
store is empty, or the incoming command text is empty, or the incoming text
differs from the whitespace-stripped first-colon-delimited segment of the
last stored record's command text (so a repeated command containing `:` or
trailing/leading whitespace is appended again rather than deduplicated). -/
theorem history_dedup_spec (hist : List (List Char)) (ts cmd src : List Char)
    (hts : ':' ∉ ts) :
    is_not_equal_last_history_record [] src = true ∧
    (is_not_equal_last_history_record (write_history hist ts cmd) src = true ↔
      src = [] ∨ pyStrip ((pySplit ':' cmd).getD 0 []) ≠ src) := by
  constructor
  · simp [is_not_equal_last_history_record]
  · unfold is_not_equal_last_history_record write_history
    have hlast : (hist ++ [ts ++ ':' :: cmd]).getLastD [] = ts ++ ':' :: cmd := by
      simp [List.getLastD_concat]
    rw [hlast, pySplit_append ':' ts cmd hts]
    by_cases hsrc : src = []
    · simp [hsrc]
    · have hgd : ((ts :: pySplit ':' cmd).getD 1 []) = (pySplit ':' cmd).getD 0 [] := by
        simp [List.getD_cons_succ]
      simp [hsrc, hgd, List.isEmpty_iff]

theorem history_dedup_spec_witness :
    (':' ∉ ("1700".data)) ∧
    (is_not_equal_last_history_record [] ("ls".data) = true ∧
      (is_not_equal_last_history_record
          (write_history [] ("1700".data) ("ls".data)) ("ls".data) = true ↔
        ("ls".data) = [] ∨
          pyStrip ((pySplit ':' ("ls".data)).getD 0 []) ≠ ("ls".data))) :=
  ⟨by decide, history_dedup_spec [] ("1700".data) ("ls".data) ("ls".data) (by decide)⟩

/-! ## Helper lemmas about dispatch -/

theorem commandOfValue_eq_none (tok : String)
    (h : Command_values.contains tok = false) : commandOfValue tok = none := by
  have h' : tok ∉ Command_values := by
    intro hm
    rw [List.contains_eq_any_beq] at h
    exact (List.any_eq_false.mp h tok hm) (by simp)
  simp only [Command_values, List.mem_cons, List.mem_singleton, not_or] at h'
  obtain ⟨h1, h2, h3, h4, h5, h6, h7⟩ := h'
  simp [commandOfValue, h1, h2, h3, h4, h5, h6, h7]

theorem commandOfValue_some_eq (tok : String) (cmd : Command)
    (h : commandOfValue tok = some cmd) : tok = commandValue cmd := by
  unfold commandOfValue at h
  split_ifs at h with h1 h2 h3 h4 h5 h6 h7 <;>
    first
      | exact Option.noConfusion h
      | (injection h with h'; subst h'; simp_all [commandValue])

theorem runDispatch_some (tok : String) :
    runDispatch (some tok) = commandOfValue tok := by
  by_cases hc : CommandManager_attr_names.contains tok = true
  · show (if CommandManager_attr_names.contains tok = true then commandOfValue tok
      else none) = commandOfValue tok
    rw [if_pos hc]
  · have hnone : commandOfValue tok = none := by
      cases hv : commandOfValue tok with
      | none => rfl
      | some cmd =>
        have he := commandOfValue_some_eq tok cmd hv
        subst he
        exact absurd
          (by cases cmd <;> decide :
            CommandManager_attr_names.contains (commandValue cmd) = true) hc
    simp [runDispatch, hc, hnone]

/-! ## Claim C4: validation versus dispatch -/

/-- Claim C4 counterexample: the first token `CD` upper-cases to the member
name `CD`, so it is validated as a known command, yet the dispatcher invokes
no handler for it (`hasattr(self, "CD")` is false — attribute lookup is
case-sensitive). -/
theorem dispatch_uppercase_counterexample :
    validate_main_command "CD" = true ∧ runDispatch (some "CD") = none := by
  decide

/-- Claim C4 (amended): a first token whose upper-cased form matches a
`Command` member name is validated as a known command, but the dispatcher
then looks the token up as a literal attribute name, so it invokes the
command's unique handler exactly when the token is written as the lowercase
command value, and invokes no handler otherwise. -/
theorem dispatch_exact_lowercase (tok : String)
    (h : validate_main_command tok = true) :
    runDispatch (some tok) = commandOfValue tok :=
  runDispatch_some tok

theorem dispatch_exact_lowercase_witness :
    validate_main_command "cd" = true ∧
    runDispatch (some "cd") = commandOfValue "cd" :=
  ⟨by decide, dispatch_exact_lowercase "cd" (by decide)⟩

/-! ## Claim C10: mixed-case tokens are silent no-ops -/

/-- Claim C10: an input line whose first token matches a built-in
case-insensitively but is not the exact lowercase command value is accepted
by the parser (no `Command not found` message) yet dispatches no handler and
prints nothing — the step only performs the usual history recording. -/
theorem mixed_case_token_silent_noop (st : ShellState) (line : String)
    (ts : List Char) (tok : String) (rest : List String)
    (htok : tokenize line = tok :: rest)
    (hval : validate_main_command tok = true)
    (hlow : Command_values.contains tok = false) :
    shellStep st line ts =
      .next ⟨st.fs, history_update st.hist ts line⟩ [] none := by
  have hnone : commandOfValue tok = none := commandOfValue_eq_none tok hlow
  unfold shellStep
  rw [htok]
  simp [parse_main_command, hval, runDispatch_some, hnone]

theorem mixed_case_token_silent_noop_witness :
    tokenize "CD" = ["CD"] ∧
    shellStep sampleState "CD" ("1".data) =
      .next ⟨sampleState.fs, history_update sampleState.hist ("1".data) "CD"⟩
        [] none :=
  ⟨by decide,
    mixed_case_token_silent_noop sampleState "CD" ("1".data) "CD" []
      (by decide) (by decide) (by decide)⟩

/-! ## Claim C8: unknown commands -/

/-- Claim C8: an input line whose first token is not a known command name
(case-insensitively) produces exactly the diagnostic `Command not found:
<token>`, invokes no handler, leaves the filesystem state unchanged, lets
the session continue, and still performs the normal (dedup-guarded) history
recording of the line. -/
theorem unknown_command_only_message (st : ShellState) (line : String)
    (ts : List Char) (tok : String) (rest : List String)
    (htok : tokenize line = tok :: rest)
    (hval : validate_main_command tok = false) :
    shellStep st line ts =
      .next ⟨st.fs, history_update st.hist ts line⟩
        ["Command not found: " ++ tok] none := by
  unfold shellStep
  rw [htok]
  simp [parse_main_command, hval, runDispatch]

theorem unknown_command_only_message_witness :
    tokenize "foo bar" = ["foo", "bar"] ∧
    shellStep sampleState "foo bar" ("1".data) =
      .next ⟨sampleState.fs, history_update sampleState.hist ("1".data) "foo bar"⟩
        ["Command not found: foo"] none :=
  ⟨by decide,
    unknown_command_only_message sampleState "foo bar" ("1".data) "foo" ["bar"]
      (by decide) (by decide)⟩

/-! ## Claim C5: `cd` -/

/-- Claim C5: with an empty argument list the target path is the user's home
directory; on a (separator-free) joined path that does not exist, `cd`
prints exactly `cd: no such file or directory: <path>` and leaves the
working directory unchanged; on an existing directory it changes the
working directory and prints the new working directory. -/
theorem cd_spec (fs : FS) (argument_path : List String) :
    (argument_path = [] → cd_target fs argument_path = fs.home) ∧
    (fs.pathExists (abspath fs.cwd (cd_target fs argument_path)) = false →
      cd_run fs argument_path =
        .ok (fs, ["cd: no such file or directory: " ++ cd_target fs argument_path])) ∧
    (fs.isDir (abspath fs.cwd (cd_target fs argument_path)) = true →
      cd_run fs argument_path =
        .ok ({ fs with cwd := abspath fs.cwd (cd_target fs argument_path) },
          [abspath fs.cwd (cd_target fs argument_path)])) := by
  refine ⟨?_, ?_, ?_⟩
  · intro h
    subst h
    simp [cd_target]
  · intro h
    have hd : fs.isDir (abspath fs.cwd (cd_target fs argument_path)) = false := by
      cases hh : fs.isDir (abspath fs.cwd (cd_target fs argument_path)) with
      | false => rfl
      | true => rw [FS.pathExists, hh] at h; simp at h
    have hf : fs.isFile (abspath fs.cwd (cd_target fs argument_path)) = false := by
      cases hh : fs.isFile (abspath fs.cwd (cd_target fs argument_path)) with
      | false => rfl
      | true => rw [FS.pathExists, hh] at h; simp at h
    simp [cd_run, FS.chdir, hd, hf]
  · intro h
    simp [cd_run, FS.chdir, h]

theorem cd_spec_witness :
    cd_run sampleFS ["x"] =
      .ok (sampleFS, ["cd: no such file or directory: x"]) ∧
    cd_run sampleFS ["d"] =
      .ok ({ sampleFS with cwd := "/h/d" }, ["/h/d"]) := by
  constructor
  · exact (cd_spec sampleFS ["x"]).2.1 (by decide)
  · exact (cd_spec sampleFS ["d"]).2.2 (by decide)

/-! ## Claim C6: `ls` on a missing path -/

theorem parse_ls_loop_error (fs : FS) (p : String)
    (hnd : pyStartsWith p "-" = false)
    (hne : fs.pathExists (abspath fs.cwd p) = false) :
    ∀ (args : List String), p ∈ args →
      (∀ q ∈ args, q ≠ p → pyStartsWith q "-" = true) →
      ∀ (ls_args : List Char) (path : String),
        parse_ls_arguments_loop fs args ls_args path =
          .error ("ls: cannot access '" ++ p ++ "': No such file or directory") := by
  intro args
  induction args with
  | nil => intro hmem; exact absurd hmem (List.not_mem_nil p)
  | cons q rest ih =>
    intro hmem hdash ls_args path
    by_cases hq : q = p
    · subst hq
      simp [parse_ls_arguments_loop, hnd, validate_ls_path_argument, hne]
    · have hd : pyStartsWith q "-" = true := hdash q (List.mem_cons_self q rest) hq
      have hmem' : p ∈ rest := by
        rcases List.mem_cons.mp hmem with h | h
        · exact absurd h.symm hq
        · exact h
      simp only [parse_ls_arguments_loop, hd, if_true]
      exact ih hmem' (fun r hr hrp => hdash r (List.mem_cons_of_mem _ hr) hrp) _ _

/-- Claim C6: an `ls` invocation whose single non-dashed token names a
missing path prints exactly `ls: cannot access '<path>': No such file or
directory` and nothing else (no entry line), whatever the set-iteration
order of the tokens. -/
theorem ls_missing_path_message (fs : FS) (args : List String) (p : String)
    (hmem : p ∈ args) (hnd : pyStartsWith p "-" = false)
    (hdash : ∀ q ∈ args, q ≠ p → pyStartsWith q "-" = true)
    (hne : fs.pathExists (abspath fs.cwd p) = false) :
    ls_run fs args =
      .ok ["ls: cannot access '" ++ p ++ "': No such file or directory"] := by
  unfold ls_run parse_ls_arguments
  rw [parse_ls_loop_error fs p hnd hne args hmem hdash]

theorem ls_missing_path_message_witness :
    ls_run sampleFS ["-l", "nope"] =
      .ok ["ls: cannot access 'nope': No such file or directory"] :=
  ls_missing_path_message sampleFS ["-l", "nope"] "nope"
    (by decide) (by decide) (by decide) (by decide)

/-! ## Claim C7: hidden-entry filtering -/

/-- Claim C7: when the `ls` flag set lacks `a` (including the empty flag
set), exactly the entries whose names start with `.` are dropped before
rendering; when the flag set contains `a`, every entry of the directory is
rendered with no filtering. -/
theorem ls_hidden_filtering (fs : FS) (ls_args : List Char) (path : String)
    (items : List Entry)
    (hiter : fs.iterdir (abspath fs.cwd path) = .ok items) :
    (ls_args.contains 'a' = false →
      ls_render fs ls_args path =
        .ok ((items.filter (fun e => !(pyStartsWith e.name "."))).map
          (render_entry ls_args))) ∧
    (ls_args.contains 'a' = true →
      ls_render fs ls_args path = .ok (items.map (render_entry ls_args))) := by
  constructor
  · intro h
    have h' : 'a' ∉ ls_args := by simpa using h
    simp [ls_render, h', hiter]
  · intro h
    have h' : 'a' ∈ ls_args := by simpa using h
    have hne : ls_args ≠ [] := List.ne_nil_of_mem h'
    simp [ls_render, h', hne, hiter]

theorem ls_hidden_filtering_witness :
    ls_render sampleFS [] "/h" = .ok ["visible"] ∧
    ls_render sampleFS ['a'] "/h" = .ok [".hidden", "visible"] := by
  constructor
  · exact (ls_hidden_filtering sampleFS [] "/h" [entryHidden, entryVisible]
      (by decide)).1 (by decide)
  · exact (ls_hidden_filtering sampleFS ['a'] "/h" [entryHidden, entryVisible]
      (by decide)).2 (by decide)

/-! ## Claim C9: what can end the session -/

theorem cd_match_ne_exitCalled (r : Except OSErr (FS × List String)) :
    (match r with
      | Except.ok x => ExecResult.ok x.1 x.2
      | Except.error e => ExecResult.raised e) ≠ ExecResult.exitCalled := by
  cases r <;> simp

theorem ls_match_ne_exitCalled (fs : FS) (r : Except OSErr (List String)) :
    (match r with
      | Except.ok out => ExecResult.ok fs out
      | Except.error e => ExecResult.raised e) ≠ ExecResult.exitCalled := by
  cases r <;> simp

theorem execute_command_exit_iff (st : ShellState) (cmd : Command)
    (args : List String) :
    execute_command st cmd args = .exitCalled ↔ cmd = .EXIT := by
  cases cmd
  case CD => simp [execute_command, cd_match_ne_exitCalled]
  case LS => simp [execute_command, ls_match_ne_exitCalled]
  all_goals simp [execute_command]

theorem execute_command_raised_imp (st : ShellState) (cmd : Command)
    (args : List String) (e : OSErr)
    (h : execute_command st cmd args = .raised e) :
    cmd = .CD ∨ cmd = .LS := by
  cases cmd <;>
    first
      | exact Or.inl rfl
      | exact Or.inr rfl
      | simp [execute_command] at h

theorem shellStep_crashed_imp (st : ShellState) (line : String) (ts : List Char)
    (e : OSErr) (h : shellStep st line ts = .crashed e) :
    (tokenize line).head? = some "cd" ∨ (tokenize line).head? = some "ls" := by
  unfold shellStep at h
  cases htok : tokenize line with
  | nil =>
    rw [htok] at h
    simp [parse_main_command, runDispatch] at h
  | cons tok rest =>
    rw [htok] at h
    by_cases hval : validate_main_command tok = true
    · simp only [parse_main_command, hval, if_true] at h
      rw [runDispatch_some] at h
      cases hcv : commandOfValue tok with
      | none => rw [hcv] at h; simp at h
      | some cmd =>
        rw [hcv] at h
        simp only at h
        rw [show List.drop 1 (tok :: rest) = rest from rfl] at h
        cases hexec : execute_command st cmd rest with
        | ok fs2 out => rw [hexec] at h; simp at h
        | exitCalled => rw [hexec] at h; simp at h
        | raised e2 =>
          have hcd := execute_command_raised_imp st cmd rest e2 hexec
          have htokv := commandOfValue_some_eq tok cmd hcv
          rcases hcd with hc | hc <;> subst hc <;> subst htokv
          · left; simp [commandValue]
          · right; simp [commandValue]
    · simp [parse_main_command, hval, runDispatch] at h

theorem shellStep_exited_iff (st : ShellState) (line : String) (ts : List Char) :
    shellStep st line ts = .exited ↔ (tokenize line).head? = some "exit" := by
  unfold shellStep
  cases htok : tokenize line with
  | nil => simp [parse_main_command, runDispatch]
  | cons tok rest =>
    simp only [List.head?_cons]
    by_cases hval : validate_main_command tok = true
    · simp only [parse_main_command, hval, if_true]
      rw [runDispatch_some]
      cases hcv : commandOfValue tok with
      | none =>
        have hex : ¬(tok = "exit") := by
          intro hh
          subst hh
          simp [commandOfValue] at hcv
        simp [hex]
      | some cmd =>
        have htokv := commandOfValue_some_eq tok cmd hcv
        subst htokv
        simp only
        rw [show List.drop 1 (commandValue cmd :: rest) = rest from rfl]
        constructor
        · intro h
          cases hexec : execute_command st cmd rest with
          | ok fs2 out => rw [hexec] at h; simp at h
          | exitCalled =>
            have hc := (execute_command_exit_iff st cmd rest).mp hexec
            subst hc
            simp [commandValue]
          | raised e2 => rw [hexec] at h; simp at h
        · intro h
          have hc : cmd = .EXIT := by
            cases cmd <;> simp_all [commandValue]
          subst hc
          simp [execute_command]
    · have hex : ¬(tok = "exit") := by
        intro hh
        subst hh
        exact absurd (by decide : validate_main_command "exit" = true)
          (by simpa using hval)
      simp [parse_main_command, hval, runDispatch, hex]

/-- Claim C9 counterexample: `cd f` on a filesystem where `f` is an existing
regular file raises `NotADirectoryError`, which `cd` does not catch — the
step crashes instead of continuing, so a failure of a dispatched command
other than `exit` does terminate the session. -/
theorem session_crash_counterexample :
    shellStep sampleState "cd f" ("1".data) = .crashed .notADirectory := by
  decide

/-- Claim C9 (amended): every failure the code handles (unknown command,
`cd` to a missing path, `ls` of a missing path) leaves the loop able to
process the next line, and `exit` is the only command that ends the session
normally — the step exits exactly when the first token is `exit`; however an
uncaught `OSError` does terminate the process, and such a crash can arise
only from dispatching `cd` or `ls` (e.g. on an existing non-directory
target). -/
theorem session_termination_spec (st : ShellState) (line : String)
    (ts : List Char) :
    (∀ e, shellStep st line ts = .crashed e →
      (tokenize line).head? = some "cd" ∨ (tokenize line).head? = some "ls") ∧
    (shellStep st line ts = .exited ↔ (tokenize line).head? = some "exit") :=
  ⟨fun e h => shellStep_crashed_imp st line ts e h,
    shellStep_exited_iff st line ts⟩

theorem session_termination_spec_witness :
    shellStep sampleState "exit" ("1".data) = .exited :=
  (session_termination_spec sampleState "exit" ("1".data)).2.mpr (by decide)

end Shell
